import Mathlib

/-!
# Verification of the Script Editor Plugin core (src/src/lib.rs)

Shallow embedding of the plugin registration and editor-instance-lifecycle
registry of the `Plugin_CodeEditor` crate.  The UI framework (gpui entities,
panels, windows) is out of scope per the spec; we model the app context as a
counter minting entity ids, and a panel handle as the entity id it refers to.
File paths are modelled as strings.  The `HashMap<usize, EditorStorage>` is
modelled as an association list with HashMap insert semantics (replace the
value if the key is present, otherwise add a new entry); the `Mutex`es around
the map and the id counter linearize concurrent calls, so concurrent
executions are modelled as arbitrary sequential interleavings of operations.
-/

set_option autoImplicit false

namespace PulsarCodeEditor

/-- `PluginError` variants relevant to this core (from `plugin_editor_api`):
`EditorNotFound { editor_id }`. -/
inductive PluginError where
  | EditorNotFound (editor_id : String)
deriving DecidableEq

/-- Icon names used by the descriptors (`ui::IconName`). -/
inductive IconName where
  | RustLang
  | Code
  | Page
deriving DecidableEq

/-- `FileStructure` — only `Standalone` is used by this plugin. -/
inductive FileStructure where
  | Standalone
deriving DecidableEq

/-- `FileTypeDefinition` from `plugin_editor_api`, with ids as strings,
colors as the raw rgb value and `default_content` as the JSON string literal.
The source field `structure` is a Lean keyword, so it is named `struct` here. -/
structure FileTypeDefinition where
  id : String
  extension : String
  display_name : String
  icon : IconName
  color : Nat
  struct : FileStructure
  default_content : String
  categories : List String
deriving DecidableEq

/-- `EditorMetadata` from `plugin_editor_api`. -/
structure EditorMetadata where
  id : String
  display_name : String
  supported_file_types : List String
deriving DecidableEq

/-- `ScriptEditorWrapper`: the delegation wrapper holding an `Entity` handle
to the panel (modelled by the entity id) and the bound file path. -/
structure ScriptEditorWrapper where
  panel : Nat
  file_path : String
deriving DecidableEq

/-- `EditorStorage`: the record owned by the instance store — a render handle
(`Arc<dyn PanelView>`, modelled by the entity id it shares with the wrapper)
and the delegation wrapper. -/
structure EditorStorage where
  panel : Nat
  wrapper : ScriptEditorWrapper
deriving DecidableEq

/-- `ScriptEditorPlugin`: the instance store (`Mutex<HashMap<usize, _>>`)
and the id counter (`Mutex<usize>`), with the mutexes erased: every state
shown to a theorem is one linearized view of the shared state. -/
structure ScriptEditorPlugin where
  editors : List (Nat × EditorStorage)
  next_editor_id : Nat
deriving DecidableEq

/-- The gpui `App` context, reduced to the part this core consumes: a
primitive minting fresh UI entities (`cx.new`), modelled as a counter. -/
structure App where
  next_entity : Nat
deriving DecidableEq

/-- `cx.new(...)`: construct a fresh UI entity, returning its handle. -/
def App.new (cx : App) : Nat × App :=
  (cx.next_entity, { next_entity := cx.next_entity + 1 })

/-- `Default for ScriptEditorPlugin`: empty store, counter at 0. -/
def ScriptEditorPlugin.default : ScriptEditorPlugin :=
  { editors := [], next_editor_id := 0 }

/-- `HashMap::insert` on the association-list model: replace the value when
the key is already present, otherwise add a new entry. -/
def hashInsert (m : List (Nat × EditorStorage)) (k : Nat) (v : EditorStorage) :
    List (Nat × EditorStorage) :=
  match m.lookup k with
  | some _ => m.map (fun p => if p.1 = k then (k, v) else p)
  | none => (k, v) :: m

/-- `ScriptEditorPlugin::file_types` (src/src/lib.rs lines 74–147): the static
file-type registry, returned as written in the source. The `&self` receiver is
kept to mirror the trait method. -/
def file_types (_ : ScriptEditorPlugin) : List FileTypeDefinition :=
  [ { id := "rust_script", extension := "rs", display_name := "Rust",
      icon := IconName.RustLang, color := 0xFF5722,
      struct := FileStructure.Standalone,
      default_content := "// New Rust script\n",
      categories := ["Scripts"] },
    { id := "javascript", extension := "js", display_name := "JavaScript",
      icon := IconName.Code, color := 0xF7DF1E,
      struct := FileStructure.Standalone,
      default_content := "// New JavaScript file\n",
      categories := ["Scripts"] },
    { id := "typescript", extension := "ts", display_name := "TypeScript",
      icon := IconName.Code, color := 0x3178C6,
      struct := FileStructure.Standalone,
      default_content := "// New TypeScript file\n",
      categories := ["Scripts"] },
    { id := "python", extension := "py", display_name := "Python Script",
      icon := IconName.Code, color := 0x3776AB,
      struct := FileStructure.Standalone,
      default_content := "# New Python script\n",
      categories := ["Scripts"] },
    { id := "lua", extension := "lua", display_name := "Lua Script",
      icon := IconName.Code, color := 0x2196F3,
      struct := FileStructure.Standalone,
      default_content := "-- New Lua script\n",
      categories := ["Scripts"] },
    { id := "toml", extension := "toml", display_name := "TOML Configuration",
      icon := IconName.Page, color := 0x9E9E9E,
      struct := FileStructure.Standalone,
      default_content := "# TOML configuration file\n",
      categories := ["Data"] },
    { id := "markdown", extension := "md", display_name := "Markdown Document",
      icon := IconName.Page, color := 0xFF5722,
      struct := FileStructure.Standalone,
      default_content := "# New Document\n",
      categories := ["Documents"] } ]

/-- `ScriptEditorPlugin::editors` (src/src/lib.rs lines 149–163): the static
editor-capability registry — a single `script-editor` descriptor.  Named
`editors` at top level because `ScriptEditorPlugin.editors` is the store
field. -/
def editors (_ : ScriptEditorPlugin) : List EditorMetadata :=
  [ { id := "script-editor", display_name := "Script Editor",
      supported_file_types :=
        ["rust_script", "javascript", "typescript", "python", "lua",
         "toml", "markdown"] } ]

/-- `ScriptEditorPlugin::create_editor` (src/src/lib.rs lines 165–205).
If the editor id is `script-editor`: build the panel entity (`cx.new`),
build the wrapper carrying the file path, allocate `id = *next_id; *next_id += 1`
under the counter lock, insert the storage record under `id`, and return the
render handle and the wrapper.  Otherwise return `EditorNotFound` carrying
the offending id and touch nothing.
Returns (result, plugin state after, app context after). -/
def ScriptEditorPlugin.create_editor (s : ScriptEditorPlugin) (editor_id : String)
    (file_path : String) (cx : App) :
    Except PluginError (Nat × ScriptEditorWrapper) × ScriptEditorPlugin × App :=
  if editor_id = "script-editor" then
    let pn := cx.new
    let panel := pn.1
    let wrapper : ScriptEditorWrapper := { panel := panel, file_path := file_path }
    let id := s.next_editor_id
    let s1 : ScriptEditorPlugin :=
      { editors := hashInsert s.editors id { panel := panel, wrapper := wrapper },
        next_editor_id := id + 1 }
    (Except.ok (panel, wrapper), s1, pn.2)
  else
    (Except.error (PluginError.EditorNotFound editor_id), s, cx)

/-- `ScriptEditorPlugin::on_unload` (src/src/lib.rs lines 211–216): read the
store size, clear the store, log the count.  Returns (count removed, state). -/
def ScriptEditorPlugin.on_unload (s : ScriptEditorPlugin) : Nat × ScriptEditorPlugin :=
  (s.editors.length, { s with editors := [] })

/-- `ScriptEditorWrapper::is_dirty` (src/src/lib.rs lines 242–244):
always `false`. -/
def ScriptEditorWrapper.is_dirty (_ : ScriptEditorWrapper) : Bool :=
  false

/-- `ScriptEditorWrapper::save` (src/src/lib.rs lines 230–234): delegate to
`panel.plugin_save` — an external UI operation, passed in as `panelSave` —
and leave the wrapper itself unchanged. -/
def ScriptEditorWrapper.save (panelSave : Nat → Except PluginError Unit)
    (w : ScriptEditorWrapper) : Except PluginError Unit × ScriptEditorWrapper :=
  (panelSave w.panel, w)

/-- `ScriptEditorWrapper::reload` (src/src/lib.rs lines 236–240): delegate to
`panel.plugin_reload`, leaving the wrapper unchanged. -/
def ScriptEditorWrapper.reload (panelReload : Nat → Except PluginError Unit)
    (w : ScriptEditorWrapper) : Except PluginError Unit × ScriptEditorWrapper :=
  (panelReload w.panel, w)

/-- An operation on a live wrapper: a `save()` or `reload()` call. -/
inductive WrapperOp where
  | save
  | reload

/-- Apply a sequence of save/reload calls to a wrapper, threading the wrapper
state through (the results of the calls are discarded; only the wrapper state
matters for the frame claims). -/
def applyWrapperOps (pSave pReload : Nat → Except PluginError Unit) :
    ScriptEditorWrapper → List WrapperOp → ScriptEditorWrapper
  | w, [] => w
  | w, WrapperOp.save :: rest =>
      applyWrapperOps pSave pReload (ScriptEditorWrapper.save pSave w).2 rest
  | w, WrapperOp.reload :: rest =>
      applyWrapperOps pSave pReload (ScriptEditorWrapper.reload pReload w).2 rest

/-- A plugin-level operation in a linearized history: a `create_editor` call
or an `on_unload` call. -/
inductive PluginOp where
  | create (editor_id : String) (file_path : String)
  | unload

/-- Run a linearized sequence of plugin operations from a given state. -/
def runOps : ScriptEditorPlugin → App → List PluginOp → ScriptEditorPlugin × App
  | s, cx, [] => (s, cx)
  | s, cx, PluginOp.create eid fp :: rest =>
      let r := s.create_editor eid fp cx
      runOps r.2.1 r.2.2 rest
  | s, cx, PluginOp.unload :: rest => runOps (s.on_unload).2 cx rest

/-- The instance ids handed out along a run, in allocation order: each
successful `create_editor` registers its record under the counter value it
read, so that value is the id allocated by that call. -/
def runIds : ScriptEditorPlugin → App → List PluginOp → List Nat
  | _, _, [] => []
  | s, cx, PluginOp.create eid fp :: rest =>
      match s.create_editor eid fp cx with
      | (Except.ok _, s1, cx1) => s.next_editor_id :: runIds s1 cx1 rest
      | (Except.error _, s1, cx1) => runIds s1 cx1 rest
  | s, cx, PluginOp.unload :: rest => runIds (s.on_unload).2 cx rest

/-- Well-formedness of the plugin state: every key in the store is below the
counter.  Holds for the default state and is preserved by every operation. -/
def ScriptEditorPlugin.Wf (s : ScriptEditorPlugin) : Prop :=
  ∀ p ∈ s.editors, p.1 < s.next_editor_id

instance (s : ScriptEditorPlugin) : Decidable s.Wf :=
  inferInstanceAs (Decidable (∀ p ∈ s.editors, p.1 < s.next_editor_id))

/-- `create_editor` on the registered kind reduces to the success branch. -/
lemma create_editor_ok (s : ScriptEditorPlugin) (fp : String) (cx : App) :
    s.create_editor "script-editor" fp cx =
      (Except.ok (cx.next_entity, { panel := cx.next_entity, file_path := fp }),
       { editors := hashInsert s.editors s.next_editor_id
           { panel := cx.next_entity,
             wrapper := { panel := cx.next_entity, file_path := fp } },
         next_editor_id := s.next_editor_id + 1 },
       { next_entity := cx.next_entity + 1 }) := rfl

/-- `create_editor` on any other kind returns `EditorNotFound` and leaves
both the plugin state and the app context untouched. -/
lemma create_editor_err (s : ScriptEditorPlugin) (eid fp : String) (cx : App)
    (h : eid ≠ "script-editor") :
    s.create_editor eid fp cx =
      (Except.error (PluginError.EditorNotFound eid), s, cx) := by
  simp [ScriptEditorPlugin.create_editor, h]

/-- A key larger than every key of the list is absent from it. -/
lemma lookup_none_of_lt :
    ∀ (l : List (Nat × EditorStorage)) (n : Nat),
      (∀ p ∈ l, p.1 < n) → l.lookup n = none
  | [], _, _ => rfl
  | (k, v) :: t, n, h => by
      have hk : k < n := h (k, v) (List.mem_cons_self _ _)
      have hb : (n == k) = false := beq_eq_false_iff_ne.mpr (Nat.ne_of_gt hk)
      simpa [List.lookup, hb] using
        lookup_none_of_lt t n fun p hp => h p (List.mem_cons_of_mem _ hp)

/-- Inserting under an absent key just adds an entry. -/
lemma hashInsert_fresh (m : List (Nat × EditorStorage)) (k : Nat) (v : EditorStorage)
    (h : m.lookup k = none) : hashInsert m k v = (k, v) :: m := by
  simp [hashInsert, h]

/-- In a well-formed state the counter value is not a key of the store. -/
lemma lookup_next_eq_none (s : ScriptEditorPlugin) (h : s.Wf) :
    s.editors.lookup s.next_editor_id = none :=
  lookup_none_of_lt _ _ h

/-- Under well-formedness, a successful creation adds exactly the one fresh
record at the head of the store. -/
lemma create_editor_editors (s : ScriptEditorPlugin) (fp : String) (cx : App)
    (h : s.Wf) :
    ((s.create_editor "script-editor" fp cx).2.1).editors =
      (s.next_editor_id,
        { panel := cx.next_entity,
          wrapper := { panel := cx.next_entity, file_path := fp } }) :: s.editors := by
  rw [create_editor_ok]
  exact hashInsert_fresh _ _ _ (lookup_next_eq_none s h)

/-- A successful creation bumps the counter by one. -/
lemma create_editor_next (s : ScriptEditorPlugin) (fp : String) (cx : App) :
    ((s.create_editor "script-editor" fp cx).2.1).next_editor_id =
      s.next_editor_id + 1 := rfl

/-- Well-formedness is preserved by `create_editor` (both branches). -/
lemma Wf_create (s : ScriptEditorPlugin) (eid fp : String) (cx : App) (h : s.Wf) :
    ((s.create_editor eid fp cx).2.1).Wf := by
  by_cases he : eid = "script-editor"
  · subst he
    intro p hp
    rw [create_editor_editors s fp cx h] at hp
    rw [create_editor_next]
    rcases List.mem_cons.mp hp with h1 | h2
    · rw [h1]
      exact Nat.lt_succ_self _
    · exact Nat.lt_succ_of_lt (h p h2)
  · rw [create_editor_err s eid fp cx he]
    exact h

/-- `runIds` on a successful creation records the counter value. -/
lemma runIds_create_ok (s : ScriptEditorPlugin) (cx : App) (fp : String)
    (rest : List PluginOp) :
    runIds s cx (PluginOp.create "script-editor" fp :: rest) =
      s.next_editor_id ::
        runIds (s.create_editor "script-editor" fp cx).2.1
          (s.create_editor "script-editor" fp cx).2.2 rest := rfl

/-- `runIds` skips a failed creation and leaves the state alone. -/
lemma runIds_create_err (s : ScriptEditorPlugin) (cx : App) (eid fp : String)
    (rest : List PluginOp) (h : eid ≠ "script-editor") :
    runIds s cx (PluginOp.create eid fp :: rest) = runIds s cx rest := by
  simp [runIds, create_editor_err s eid fp cx h]

/-- `runIds` passes over an unload, which clears the store only. -/
lemma runIds_unload (s : ScriptEditorPlugin) (cx : App) (rest : List PluginOp) :
    runIds s cx (PluginOp.unload :: rest) = runIds (s.on_unload).2 cx rest := rfl

/-- Along any run the allocated ids are strictly increasing, and all of them
are at least the starting counter value. -/
lemma runIds_sorted_ge :
    ∀ (ops : List PluginOp) (s : ScriptEditorPlugin) (cx : App),
      (runIds s cx ops).Pairwise (fun a b => a < b) ∧
        ∀ x ∈ runIds s cx ops, s.next_editor_id ≤ x := by
  intro ops
  induction ops with
  | nil =>
      intro s cx
      exact ⟨List.Pairwise.nil, by intro x hx; cases hx⟩
  | cons op rest ih =>
      intro s cx
      cases op with
      | unload =>
          rw [runIds_unload]
          exact ih (s.on_unload).2 cx
      | create eid fp =>
          by_cases he : eid = "script-editor"
          · subst he
            rw [runIds_create_ok]
            have h := ih (s.create_editor "script-editor" fp cx).2.1
              (s.create_editor "script-editor" fp cx).2.2
            have hnext := create_editor_next s fp cx
            constructor
            · refine List.Pairwise.cons (fun y hy => ?_) h.1
              have hy2 := h.2 y hy
              rw [hnext] at hy2
              omega
            · intro x hx
              rcases List.mem_cons.mp hx with h1 | h2
              · rw [h1]
              · have hx2 := h.2 x h2
                rw [hnext] at hx2
                omega
          · rw [runIds_create_err s cx eid fp rest he]
            exact ih s cx

/-- Along any run the allocated ids are exactly the consecutive integers
starting from the initial counter value. -/
lemma runIds_eq_range :
    ∀ (ops : List PluginOp) (s : ScriptEditorPlugin) (cx : App),
      runIds s cx ops = List.range' s.next_editor_id (runIds s cx ops).length := by
  intro ops
  induction ops with
  | nil => intro s cx; rfl
  | cons op rest ih =>
      intro s cx
      cases op with
      | unload =>
          rw [runIds_unload]
          exact ih (s.on_unload).2 cx
      | create eid fp =>
          by_cases he : eid = "script-editor"
          · subst he
            rw [runIds_create_ok, List.length_cons, List.range'_succ]
            refine congrArg (fun l => s.next_editor_id :: l) ?_
            have h := ih (s.create_editor "script-editor" fp cx).2.1
              (s.create_editor "script-editor" fp cx).2.2
            rw [create_editor_next] at h
            exact h
          · rw [runIds_create_err s cx eid fp rest he]
            exact ih s cx

/-- Every creation request with the valid kind allocates exactly one id. -/
lemma runIds_length_valid :
    ∀ (reqs : List String) (s : ScriptEditorPlugin) (cx : App),
      (runIds s cx (reqs.map (fun fp => PluginOp.create "script-editor" fp))).length
        = reqs.length := by
  intro reqs
  induction reqs with
  | nil => intro s cx; rfl
  | cons fp rest ih =>
      intro s cx
      rw [List.map_cons, runIds_create_ok, List.length_cons, ih, List.length_cons]

/-- Running a batch of valid creation requests grows the store by exactly
one record per request. -/
lemma runOps_length_valid :
    ∀ (reqs : List String) (s : ScriptEditorPlugin) (cx : App), s.Wf →
      (runOps s cx (reqs.map (fun fp => PluginOp.create "script-editor" fp))).1.editors.length
        = s.editors.length + reqs.length := by
  intro reqs
  induction reqs with
  | nil => intro s cx _; rfl
  | cons fp rest ih =>
      intro s cx h
      rw [List.map_cons]
      show (runOps (s.create_editor "script-editor" fp cx).2.1
          (s.create_editor "script-editor" fp cx).2.2
          (rest.map (fun fp => PluginOp.create "script-editor" fp))).1.editors.length
        = s.editors.length + (fp :: rest).length
      rw [ih _ _ (Wf_create s "script-editor" fp cx h)]
      rw [create_editor_editors s fp cx h]
      simp [List.length_cons]
      omega

/-- Save/reload calls never change the wrapper state, so the bound path is
invariant. -/
lemma applyWrapperOps_file_path (pS pR : Nat → Except PluginError Unit) :
    ∀ (ops : List WrapperOp) (w : ScriptEditorWrapper),
      (applyWrapperOps pS pR w ops).file_path = w.file_path
  | [], _ => rfl
  | WrapperOp.save :: rest, w => applyWrapperOps_file_path pS pR rest w
  | WrapperOp.reload :: rest, w => applyWrapperOps_file_path pS pR rest w

/-- C1: For every (linearized) sequence of plugin operations, the instance
ids handed out by `create_editor` are pairwise distinct and strictly
increasing in allocation order; since unloads never touch the counter, an id
is never reused even after the instance it names has been removed. -/
theorem allocated_ids_strictly_increasing (s : ScriptEditorPlugin) (cx : App)
    (ops : List PluginOp) :
    (runIds s cx ops).Pairwise (fun a b => a < b) :=
  (runIds_sorted_ge ops s cx).1

/-- C2: For every file path, `create_editor` with kind `script-editor`
succeeds without re-validating the file type, and the store afterwards has
exactly one more record, keyed by the freshly allocated id, with every
previously stored record unchanged. -/
theorem create_editor_valid_kind_succeeds (s : ScriptEditorPlugin) (cx : App)
    (fp : String) (h : s.Wf) :
    (∃ v, (s.create_editor "script-editor" fp cx).1 = Except.ok v) ∧
    ((s.create_editor "script-editor" fp cx).2.1).editors.length
      = s.editors.length + 1 ∧
    ((s.create_editor "script-editor" fp cx).2.1).editors.lookup s.next_editor_id
      = some { panel := cx.next_entity,
               wrapper := { panel := cx.next_entity, file_path := fp } } ∧
    ∀ k, k ≠ s.next_editor_id →
      ((s.create_editor "script-editor" fp cx).2.1).editors.lookup k
        = s.editors.lookup k := by
  refine ⟨⟨(cx.next_entity, { panel := cx.next_entity, file_path := fp }), rfl⟩,
    ?_, ?_, ?_⟩
  · rw [create_editor_editors s fp cx h, List.length_cons]
  · rw [create_editor_editors s fp cx h]
    simp [List.lookup]
  · intro k hk
    have hb : (k == s.next_editor_id) = false := beq_eq_false_iff_ne.mpr hk
    rw [create_editor_editors s fp cx h]
    simp [List.lookup, hb]

/-- C2 witness: concrete instantiation at the default state. -/
theorem create_editor_valid_kind_succeeds_witness :
    ScriptEditorPlugin.default.Wf ∧
    ((∃ v, (ScriptEditorPlugin.default.create_editor "script-editor" "/tmp/a.py"
        { next_entity := 0 }).1 = Except.ok v) ∧
     ((ScriptEditorPlugin.default.create_editor "script-editor" "/tmp/a.py"
        { next_entity := 0 }).2.1).editors.length
       = ScriptEditorPlugin.default.editors.length + 1 ∧
     ((ScriptEditorPlugin.default.create_editor "script-editor" "/tmp/a.py"
        { next_entity := 0 }).2.1).editors.lookup
          ScriptEditorPlugin.default.next_editor_id
       = some { panel := 0, wrapper := { panel := 0, file_path := "/tmp/a.py" } } ∧
     ∀ k, k ≠ ScriptEditorPlugin.default.next_editor_id →
       ((ScriptEditorPlugin.default.create_editor "script-editor" "/tmp/a.py"
          { next_entity := 0 }).2.1).editors.lookup k
         = ScriptEditorPlugin.default.editors.lookup k) :=
  ⟨by decide,
   create_editor_valid_kind_succeeds ScriptEditorPlugin.default
     { next_entity := 0 } "/tmp/a.py" (by decide)⟩

/-- C3: For every unregistered editor kind and every file path,
`create_editor` returns `EditorNotFound` carrying the offending id and the
whole plugin state (store and counter) is left unchanged. -/
theorem create_editor_unknown_kind_fails (s : ScriptEditorPlugin) (cx : App)
    (eid fp : String) (h : eid ≠ "script-editor") :
    s.create_editor eid fp cx =
      (Except.error (PluginError.EditorNotFound eid), s, cx) :=
  create_editor_err s eid fp cx h

/-- C3 witness: the spec's example kind `nonexistent-editor`. -/
theorem create_editor_unknown_kind_fails_witness :
    ("nonexistent-editor" : String) ≠ "script-editor" ∧
    ScriptEditorPlugin.default.create_editor "nonexistent-editor" "/tmp/a.py"
        { next_entity := 0 }
      = (Except.error (PluginError.EditorNotFound "nonexistent-editor"),
         ScriptEditorPlugin.default, { next_entity := 0 }) :=
  ⟨by decide,
   create_editor_unknown_kind_fails ScriptEditorPlugin.default { next_entity := 0 }
     "nonexistent-editor" "/tmp/a.py" (by decide)⟩

/-- C4: `on_unload` removes exactly as many records as are live and leaves
the store empty; calling it again on the emptied state removes 0 records and
(being a total function) does not fail. -/
theorem on_unload_clears_store (s : ScriptEditorPlugin) :
    s.on_unload.1 = s.editors.length ∧
    s.on_unload.2.editors = [] ∧
    s.on_unload.2.on_unload.1 = 0 ∧
    s.on_unload.2.on_unload.2.editors = [] :=
  ⟨rfl, rfl, rfl, rfl⟩

/-- C5: Any linearized interleaving of concurrent `create_editor` calls with
the valid kind (the mutexes make every interleaving a sequential run): every
call succeeds (one id per request), the ids are pairwise distinct and observe
allocation order, and the store ends with exactly one record per call. -/
theorem concurrent_creates_all_succeed (s : ScriptEditorPlugin) (cx : App)
    (reqs : List String) (h : s.Wf) :
    (runIds s cx (reqs.map (fun fp => PluginOp.create "script-editor" fp))).length
      = reqs.length ∧
    (runIds s cx (reqs.map (fun fp => PluginOp.create "script-editor" fp))).Pairwise
      (fun a b => a < b) ∧
    (runOps s cx (reqs.map (fun fp => PluginOp.create "script-editor" fp))).1.editors.length
      = s.editors.length + reqs.length :=
  ⟨runIds_length_valid reqs s cx,
   (runIds_sorted_ge (reqs.map (fun fp => PluginOp.create "script-editor" fp)) s cx).1,
   runOps_length_valid reqs s cx h⟩

/-- C5 witness: three concurrent creation requests from the default state. -/
theorem concurrent_creates_all_succeed_witness :
    ScriptEditorPlugin.default.Wf ∧
    ((runIds ScriptEditorPlugin.default { next_entity := 0 }
        (["/a.py", "/b.rs", "/c.lua"].map
          (fun fp => PluginOp.create "script-editor" fp))).length
       = ["/a.py", "/b.rs", "/c.lua"].length ∧
     (runIds ScriptEditorPlugin.default { next_entity := 0 }
        (["/a.py", "/b.rs", "/c.lua"].map
          (fun fp => PluginOp.create "script-editor" fp))).Pairwise
       (fun a b => a < b) ∧
     (runOps ScriptEditorPlugin.default { next_entity := 0 }
        (["/a.py", "/b.rs", "/c.lua"].map
          (fun fp => PluginOp.create "script-editor" fp))).1.editors.length
       = ScriptEditorPlugin.default.editors.length
           + ["/a.py", "/b.rs", "/c.lua"].length) :=
  ⟨by decide,
   concurrent_creates_all_succeed ScriptEditorPlugin.default { next_entity := 0 }
     ["/a.py", "/b.rs", "/c.lua"] (by decide)⟩

/-- C6: `file_types` is deterministic and state-independent (every call
returns the same ordered list), and within the returned list the extensions
are pairwise distinct and the ids are pairwise distinct. -/
theorem file_types_deterministic_distinct (s t : ScriptEditorPlugin) :
    file_types s = file_types t ∧
    ((file_types s).map (fun d => d.extension)).Nodup ∧
    ((file_types s).map (fun d => d.id)).Nodup := by
  have hf : file_types s = file_types ScriptEditorPlugin.default := rfl
  refine ⟨rfl, ?_, ?_⟩ <;> (rw [hf]; decide)

/-- C7: Every file-type id in the `supported_file_types` set of every
descriptor returned by `editors` occurs as the id of some descriptor
returned by `file_types`. -/
theorem editors_reference_known_file_types (s : ScriptEditorPlugin) :
    ∀ e ∈ editors s, ∀ ftid ∈ e.supported_file_types,
      ftid ∈ (file_types s).map (fun d => d.id) := by
  have hf : file_types s = file_types ScriptEditorPlugin.default := rfl
  have he : editors s = editors ScriptEditorPlugin.default := rfl
  rw [hf, he]
  decide

/-- C7 witness: the lone editor descriptor and its `python` entry. -/
theorem editors_reference_known_file_types_witness :
    ("python" : String) ∈
      (file_types ScriptEditorPlugin.default).map (fun d => d.id) :=
  editors_reference_known_file_types ScriptEditorPlugin.default
    { id := "script-editor", display_name := "Script Editor",
      supported_file_types :=
        ["rust_script", "javascript", "typescript", "python", "lua",
         "toml", "markdown"] }
    (by decide) "python" (by decide)

/-- C8: The wrapper returned by a successful creation is bound to exactly the
path passed to `create_editor`, and that path is unchanged by any sequence of
`save` and `reload` calls (for any behavior of the underlying panel). -/
theorem wrapper_path_immutable (s : ScriptEditorPlugin) (cx : App) (fp : String)
    (pSave pReload : Nat → Except PluginError Unit) (ops : List WrapperOp) :
    ((s.create_editor "script-editor" fp cx).1).map
        (fun r => (applyWrapperOps pSave pReload r.2 ops).file_path)
      = Except.ok fp := by
  rw [create_editor_ok]
  show Except.ok (applyWrapperOps pSave pReload
      { panel := cx.next_entity, file_path := fp } ops).file_path = Except.ok fp
  rw [applyWrapperOps_file_path]

/-- C9: `is_dirty` returns the conservative default `false` on every wrapper,
regardless of the state of the underlying editor. -/
theorem is_dirty_always_false (w : ScriptEditorWrapper) :
    w.is_dirty = false := rfl

/-- C10: A failed creation leaves the id counter (indeed the whole state)
unchanged — the counter is read and incremented only on the success path —
so the ids handed out across the successful creations of any run from the
default state are the consecutive integers 0, 1, 2, … with no gaps. -/
theorem failed_creates_consume_no_ids (s : ScriptEditorPlugin) (cx : App)
    (eid fp : String) (ops : List PluginOp) (h : eid ≠ "script-editor") :
    (s.create_editor eid fp cx).2.1 = s ∧
    runIds ScriptEditorPlugin.default cx ops =
      List.range (runIds ScriptEditorPlugin.default cx ops).length := by
  constructor
  · rw [create_editor_err s eid fp cx h]
  · rw [List.range_eq_range']
    exact runIds_eq_range ops ScriptEditorPlugin.default cx

/-- C10 witness: a run mixing successful and failed creations. -/
theorem failed_creates_consume_no_ids_witness :
    ("nonexistent-editor" : String) ≠ "script-editor" ∧
    ((ScriptEditorPlugin.default.create_editor "nonexistent-editor" "/x.py"
        { next_entity := 0 }).2.1 = ScriptEditorPlugin.default ∧
     runIds ScriptEditorPlugin.default { next_entity := 0 }
        [PluginOp.create "script-editor" "/a.py",
         PluginOp.create "nonexistent-editor" "/b.py",
         PluginOp.create "script-editor" "/c.py"] =
       List.range (runIds ScriptEditorPlugin.default { next_entity := 0 }
        [PluginOp.create "script-editor" "/a.py",
         PluginOp.create "nonexistent-editor" "/b.py",
         PluginOp.create "script-editor" "/c.py"]).length) :=
  ⟨by decide,
   failed_creates_consume_no_ids ScriptEditorPlugin.default { next_entity := 0 }
     "nonexistent-editor" "/x.py"
     [PluginOp.create "script-editor" "/a.py",
      PluginOp.create "nonexistent-editor" "/b.py",
      PluginOp.create "script-editor" "/c.py"] (by decide)⟩

end PulsarCodeEditor
